import Mathlib

/-
  Verification development for the mcp-server-manager repository.

  The definitions below are a shallow embedding of the install/build/create
  tool handlers of the modular implementation
  (src/tools/install-server/index.ts, src/tools/build-server/index.ts,
  src/tools/create-server/index.ts) together with the shared file-system
  helpers (src/utils/fs.ts).  File-system state is passed explicitly:
  a directory listing plus the existence flags and sub-listings the code
  queries, and the config file as an explicit state value.  External child
  processes (npm, uv, mvn) are oracles: their outcomes are inputs.
-/

namespace MCPServerManager

/-- A JSON value, as produced by JSON.parse.  Numbers are modelled as
integers (the registry documents handled by the code contain no fractional
numbers; this only matters for the JavaScript truthiness test below). -/
inductive JsonVal : Type where
  | null : JsonVal
  | bool (b : Bool) : JsonVal
  | num (n : Int) : JsonVal
  | str (s : String) : JsonVal
  | arr (elems : List JsonVal) : JsonVal
  | obj (fields : List (String × JsonVal)) : JsonVal

/-- A parsed JSON object document: an ordered association list of fields,
as JSON.parse yields for a JSON object (no duplicate keys). -/
abbrev Doc := List (String × JsonVal)

/-- Property lookup on a JSON object: first field with the given key. -/
def lookupKey : Doc → String → Option JsonVal
  | [], _ => none
  | (k2, v) :: rest, k => if k2 = k then some v else lookupKey rest k

/-- Property assignment on a JSON object (the semantics of
obj[key] = value in JavaScript): replace the first field with the given
key in place, or append a new field at the end. -/
def setKey : Doc → String → JsonVal → Doc
  | [], k, v => [(k, v)]
  | (k2, v2) :: rest, k, v =>
      if k2 = k then (k, v) :: rest else (k2, v2) :: setKey rest k v

/-- JavaScript truthiness test on a JSON value (used by the
`if (!config.mcpServers)` guard): null, false, 0 and the empty string are
falsy; every object and array is truthy. -/
def jsFalsy : JsonVal → Bool
  | .null => true
  | .bool b => !b
  | .num n => n = 0
  | .str s => s = ""
  | .arr _ => false
  | .obj _ => false

/-- Array.prototype.includes on a directory listing. -/
def includes (l : List String) (s : String) : Bool :=
  l.any (fun f => f = s)

/-- String.prototype.endsWith, modelled on the character list. -/
def strEndsWith (s suffix : String) : Bool :=
  List.isSuffixOf suffix.data s.data

/-- The character-list split underlying the path helpers. -/
def splitOnChar (c : Char) : List Char → List (List Char)
  | [] => [[]]
  | x :: xs =>
      let r := splitOnChar c xs
      if x = c then [] :: r
      else
        match r with
        | [] => [[x]]
        | y :: ys => (x :: y) :: ys

/-- path.basename: the final non-empty path segment. -/
def basename (p : String) : String :=
  match (splitOnChar '/' p.data).filter (fun s => s ≠ []) with
  | [] => p
  | xs => ⟨xs.getLastD []⟩

/-- path.dirname: everything before the final path segment. -/
def dirname (p : String) : String :=
  match splitOnChar '/' p.data with
  | [] => "."
  | [_] => "."
  | xs => ⟨List.intercalate ['/'] xs.dropLast⟩

/-- path.join restricted to two segments, as the code uses it on
already-clean paths. -/
def pathJoin (a b : String) : String := a ++ "/" ++ b

/-- The closed set of server kinds returned by determineServerType. -/
inductive ServerType : Type where
  | nodejs
  | python
  | java
deriving DecidableEq, Repr

/-- The slice of file-system state that the install tool inspects in a
project directory: the directory listing (fs.readdir) and the results of
the individual fileExists probes and build-output listings. -/
structure ProjFS where
  entries : List String
  serverPyExists : Bool
  targetExists : Bool
  buildLibsExists : Bool
  targetFiles : List String
  buildLibsFiles : List String

/-- determineServerType (src/tools/install-server/index.ts), body of the
try block: priority-ordered detection over the directory listing, with the
JVM rule also probing for the target and build/libs output directories. -/
def determineServerTypeInner (dir : String) (fs : ProjFS) :
    Except String ServerType :=
  if includes fs.entries "package.json" then .ok .nodejs
  else if includes fs.entries "server.py"
      || fs.entries.any (fun f => strEndsWith f ".py")
      || includes fs.entries "requirements.txt"
      || includes fs.entries "pyproject.toml" then .ok .python
  else if includes fs.entries "pom.xml"
      || includes fs.entries "build.gradle"
      || fs.targetExists
      || fs.buildLibsExists then .ok .java
  else .error ("Unable to determine server type in directory: " ++ dir)

/-- determineServerType with its enclosing catch, which rewraps any thrown
message. -/
def determineServerType (dir : String) (fs : ProjFS) :
    Except String ServerType :=
  match determineServerTypeInner dir fs with
  | .ok t => .ok t
  | .error e => .error ("Failed to determine server type: " ++ e)

/-- A launch spec: the command plus ordered argument list registered for a
server under mcpServers. -/
structure LaunchSpec where
  command : String
  args : List String
deriving DecidableEq, Repr

/-- The JSON object written for a launch spec. -/
def LaunchSpec.toJson (s : LaunchSpec) : JsonVal :=
  .obj [("command", .str s.command), ("args", .arr (s.args.map .str))]

/-- serverName.replace with a global dash regex: every dash in the server
name becomes an underscore. -/
def moduleNameOf (name : String) : String :=
  ⟨name.data.map (fun c => if c = '-' then '_' else c)⟩

/-- Jar selection in the Maven branch of updateClaudeConfig:
files.find(f => f.endsWith("-jar-with-dependencies.jar")) ||
files.find(f => f.endsWith(".jar")). -/
def chooseMavenJar (files : List String) : Option String :=
  match files.find? (fun f => strEndsWith f "-jar-with-dependencies.jar") with
  | some j => some j
  | none => files.find? (fun f => strEndsWith f ".jar")

/-- The launch-spec construction performed inside updateClaudeConfig per
server type (src/tools/install-server/index.ts, lines 144-211), up to but
not including the assignment into config.mcpServers.  The java branch can
throw; the error strings are the thrown messages. -/
def buildEntry (t : ServerType) (serverName serverDir : String)
    (fs : ProjFS) : Except String LaunchSpec :=
  match t with
  | .nodejs =>
      .ok ⟨"node", [pathJoin (pathJoin serverDir "build") "index.js"]⟩
  | .python =>
      if fs.serverPyExists then
        .ok ⟨"uv", ["--directory", serverDir, "run", "server.py"]⟩
      else
        .ok ⟨"python", ["-m", moduleNameOf serverName]⟩
  | .java =>
      if fs.targetExists then
        match chooseMavenJar fs.targetFiles with
        | some jar =>
            .ok ⟨"java", ["-jar", pathJoin (pathJoin serverDir "target") jar]⟩
        | none =>
            .error ("No jar file found in " ++ pathJoin serverDir "target")
      else if fs.buildLibsExists then
        match fs.buildLibsFiles.find? (fun f => strEndsWith f ".jar") with
        | some jar =>
            .ok ⟨"java",
              ["-jar",
                pathJoin (pathJoin (pathJoin serverDir "build") "libs") jar]⟩
        | none =>
            .error ("No jar file found in "
              ++ pathJoin (pathJoin serverDir "build") "libs")
      else
        .error ("No Maven or Gradle build artifacts found in " ++ serverDir)

/-- State of the config file at the resolved config path.  The parsedObj
case covers documents that JSON.parse turns into an object, the shape every
registry document has; invalid covers a present file whose contents make
JSON.parse throw. -/
inductive ConfigFileState : Type where
  | absent : ConfigFileState
  | invalid (raw : String) : ConfigFileState
  | parsedObj (doc : Doc) : ConfigFileState

/-- The `if (!config.mcpServers) config.mcpServers = {}` normalization run
after a successful parse. -/
def normalizeMcp (o : Doc) : Doc :=
  match lookupKey o "mcpServers" with
  | some v => if jsFalsy v then setKey o "mcpServers" (.obj []) else o
  | none => setKey o "mcpServers" (.obj [])

/-- The assignment config.mcpServers[serverName] = entry followed by
JSON.stringify, at the level of the resulting document.  When mcpServers is
an object the field is inserted or overwritten; when it is an array the
string-keyed expando property is dropped again by JSON.stringify, so the
document is unchanged; assigning a property on a truthy primitive throws a
TypeError (the sources are ES modules, hence strict mode). -/
def assignServer (o : Doc) (name : String) (v : JsonVal) :
    Except String Doc :=
  match lookupKey o "mcpServers" with
  | some (.obj m) => .ok (setKey o "mcpServers" (.obj (setKey m name v)))
  | some (.arr _) => .ok o
  | some _ => .error "TypeError: cannot create property on primitive value"
  | none => .error "TypeError: cannot create property on undefined"

/-- The document the read phase of updateClaudeConfig ends up with: the
parsed document after the mcpServers normalization, or the default document
with an empty mcpServers object when the file is absent (the config
directory is then created) or when JSON.parse threw and the inner catch
swallowed the error. -/
def loadedDoc : ConfigFileState → Doc
  | .parsedObj o => normalizeMcp o
  | .invalid _ => [("mcpServers", .obj [])]
  | .absent => [("mcpServers", .obj [])]

/-- updateClaudeConfig (src/tools/install-server/index.ts, lines 117-218).
Read phase: a parse failure is caught by the inner catch (only a warning is
logged) and the default document with an empty mcpServers object is used;
an absent file likewise starts from the default document (after making the
config directory).  Then the launch spec is built and assigned, and on
success the merged document is written with writeJsonFile.  The returned
document is the one written; an error means nothing was written.  The outer
catch rewraps any thrown message. -/
def updateClaudeConfig (cfg : ConfigFileState) (t : ServerType)
    (serverName serverDir : String) (fs : ProjFS) : Except String Doc :=
  match buildEntry t serverName serverDir fs with
  | .error e => .error ("Failed to update Claude Desktop config: " ++ e)
  | .ok spec =>
      match assignServer (loadedDoc cfg) serverName spec.toJson with
      | .error e => .error ("Failed to update Claude Desktop config: " ++ e)
      | .ok d => .ok d

/-- The install pipeline after the directory-existence check: detect the
server type, take the server name from the basename of the resolved
directory, and update the config.  Ok carries the document written to the
config file; error means the config file was not touched. -/
def installServer (fullPath : String) (fs : ProjFS)
    (cfg : ConfigFileState) : Except String Doc :=
  match determineServerType fullPath fs with
  | .error e => .error e
  | .ok t => updateClaudeConfig cfg t (basename fullPath) fullPath fs

/-- The config file state after a run of installServer. -/
def configStateAfter (cfg : ConfigFileState) (r : Except String Doc) :
    ConfigFileState :=
  match r with
  | .ok d => .parsedObj d
  | .error _ => cfg

/-- A file-system side effect of the Config Store save step. -/
inductive FsOp : Type where
  | mkdirRec (path : String) : FsOp
  | writeFile (path : String) (content : String) : FsOp
  | rename (fromPath toPath : String) : FsOp
deriving DecidableEq, Repr

def FsOp.isRename : FsOp → Bool
  | .rename _ _ => true
  | _ => false

/-- writeJsonFile (src/utils/fs.ts, lines 61-69) as the ordered list of
file-system operations it performs: mkdir -p on the parent directory, then
a single direct fs.writeFile of the serialized data to the target path. -/
def writeJsonFile (filePath : String) (content : String) : List FsOp :=
  [FsOp.mkdirRec (dirname filePath), FsOp.writeFile filePath content]

/-- The uniform result shape every tool handler returns to the caller:
a text payload marked either as success or as an error result. -/
inductive ToolResult : Type where
  | success (text : String) : ToolResult
  | failure (text : String) : ToolResult

/-- installServerTool handler (src/tools/install-server/index.ts, lines
28-78): directory check, then the pipeline, with the top-level catch
turning any thrown error into a failure result. -/
def installServerTool (dirExists : Bool) (fullPath configPath : String)
    (fs : ProjFS) (cfg : ConfigFileState) : ToolResult :=
  if dirExists then
    match installServer fullPath fs cfg with
    | .ok _ =>
        .success ("Successfully installed MCP server \"" ++ basename fullPath
          ++ "\" at " ++ fullPath ++ " in Claude Desktop config at "
          ++ configPath)
    | .error e => .failure ("Failed to install server: " ++ e)
  else
    .failure ("Error: Directory " ++ fullPath ++ " does not exist.")

/-- Outcomes of the external build-tool invocation chains, one oracle per
language branch; the spec treats shelling out as an opaque succeed-or-fail
collaborator. -/
structure ExternalBuilds where
  tsBuild : Except String Unit
  pyBuild : Except String Unit
  javaBuild : Except String Unit

/-- buildServerTool handler (src/tools/build-server/index.ts): directory
check, detection over the listing, one build chain per language, catch at
the boundary. -/
def buildServerTool (dirExists : Bool) (fullPath : String)
    (entries : List String) (ext : ExternalBuilds) : ToolResult :=
  if dirExists then
    if includes entries "package.json" then
      match ext.tsBuild with
      | .ok _ =>
          .success ("Successfully built TypeScript MCP server at " ++ fullPath)
      | .error e => .failure ("Failed to build server: " ++ e)
    else if includes entries "requirements.txt"
        || includes entries "pyproject.toml"
        || includes entries "server.py" then
      match ext.pyBuild with
      | .ok _ =>
          .success ("Successfully built Python MCP server at " ++ fullPath)
      | .error e => .failure ("Failed to build server: " ++ e)
    else if includes entries "pom.xml" || includes entries "build.gradle" then
      match ext.javaBuild with
      | .ok _ =>
          .success ("Successfully built Java MCP server at " ++ fullPath)
      | .error e => .failure ("Failed to build server: " ++ e)
    else
      .failure ("Unable to determine project type in " ++ fullPath
        ++ ". Make sure it is a valid MCP server project.")
  else
    .failure ("Error: Directory " ++ fullPath ++ " does not exist.")

/-- The language enum of the create-server tool schema. -/
inductive ServerLanguage : Type where
  | typescript
  | python
  | java

def ServerLanguage.text : ServerLanguage → String
  | .typescript => "typescript"
  | .python => "python"
  | .java => "java"

/-- Outcomes of the scaffolding collaborators of the create-server tool:
the ensureDir call and the language-specific template expansion. -/
structure ScaffoldEnv where
  mkdirResult : Except String Unit
  scaffold : Except String Unit

/-- createServerTool handler (src/tools/create-server/index.ts): fails if
the target path already exists, otherwise creates the directory and runs
the language scaffolder, with the boundary catch. -/
def createServerTool (name : String) (lang : ServerLanguage)
    (resolvedDir : String) (targetExists : Bool) (env : ScaffoldEnv) :
    ToolResult :=
  let fullPath := pathJoin resolvedDir name
  if targetExists then
    .failure ("Error: Directory " ++ fullPath
      ++ " already exists. Please choose a different name or directory.")
  else
    match env.mkdirResult with
    | .error e => .failure ("Failed to create server: " ++ e)
    | .ok _ =>
        match env.scaffold with
        | .ok _ =>
            .success ("Successfully created " ++ lang.text
              ++ " MCP server project \"" ++ name ++ "\" at " ++ fullPath)
        | .error e => .failure ("Failed to create server: " ++ e)

/-- The typed-script ecosystem marker file of detection rule 1. -/
def isTsMarker (f : String) : Bool := f == "package.json"

/-- The dynamic-script ecosystem marker files of detection rule 2. -/
def isPyMarker (f : String) : Bool :=
  f == "server.py" || strEndsWith f ".py"
    || f == "requirements.txt" || f == "pyproject.toml"

/-- The JVM build-tool project files of detection rule 3. -/
def isJvmMarker (f : String) : Bool := f == "pom.xml" || f == "build.gradle"

/-- Any ecosystem marker file the detector reacts to. -/
def isMarker (f : String) : Bool := isTsMarker f || isPyMarker f || isJvmMarker f

/-- Directory snapshot of the Maven end-to-end scenario: the listing holds
only pom.xml and the target directory, and target holds exactly the
dependencies-bundling jar. -/
def mavenScenarioFS : ProjFS :=
  { entries := ["pom.xml", "target"], serverPyExists := false,
    targetExists := true, buildLibsExists := false,
    targetFiles := ["my-server-1.0.0-jar-with-dependencies.jar"],
    buildLibsFiles := [] }

/-- Directory snapshot of the dynamic-script end-to-end scenario: the
listing holds only server.py. -/
def pyScenarioFS : ProjFS :=
  { entries := ["server.py"], serverPyExists := true,
    targetExists := false, buildLibsExists := false,
    targetFiles := [], buildLibsFiles := [] }

/-- Directory snapshot of a project with no recognizable marker at all. -/
def noMarkerFS : ProjFS :=
  { entries := [], serverPyExists := false,
    targetExists := false, buildLibsExists := false,
    targetFiles := [], buildLibsFiles := [] }

/-- A dynamic-script snapshot without a root server.py entry point. -/
def pyModuleFS : ProjFS :=
  { entries := ["requirements.txt"], serverPyExists := false,
    targetExists := false, buildLibsExists := false,
    targetFiles := [], buildLibsFiles := [] }

/-- Contents of a config file that JSON.parse rejects. -/
def corruptRaw : String := "this is not json"

/-- The mcpServers mapping of the registry-merge example: one existing
server named a. -/
def demoMcp : Doc :=
  [("a", JsonVal.obj [("command", JsonVal.str "node"),
    ("args", JsonVal.arr [JsonVal.str "/srv/a/build/index.js"])])]

/-- The registry document of the registry-merge example: the demoMcp
mapping under mcpServers plus an unrelated top-level key otherTool. -/
def demoDoc : Doc :=
  [("mcpServers", JsonVal.obj demoMcp),
   ("otherTool", JsonVal.obj [("x", JsonVal.num 1)])]

/-- The launch spec installed in the registry-merge example. -/
def demoSpec : LaunchSpec := ⟨"uv", ["--directory", "/d/b", "run", "server.py"]⟩

theorem lookupKey_setKey_self (l : Doc) (k : String) (v : JsonVal) :
    lookupKey (setKey l k v) k = some v := by
  induction l with
  | nil => simp [setKey, lookupKey]
  | cons hd tl ih =>
      by_cases h : hd.1 = k
      · simp [setKey, lookupKey, h]
      · simp [setKey, lookupKey, h, ih]

theorem lookupKey_setKey_ne (l : Doc) (k k2 : String) (v : JsonVal)
    (h : k2 ≠ k) : lookupKey (setKey l k v) k2 = lookupKey l k2 := by
  have hk : ¬k = k2 := fun hh => h hh.symm
  induction l with
  | nil => simp [setKey, lookupKey, hk]
  | cons hd tl ih =>
      by_cases h2 : hd.1 = k
      · have h3 : ¬hd.1 = k2 := by rw [h2]; exact hk
        simp [setKey, lookupKey, h2, hk, h3]
      · by_cases h3 : hd.1 = k2 <;> simp [setKey, lookupKey, h2, h3, h, hk, ih]

theorem includes_iff_mem (l : List String) (s : String) :
    includes l s = true ↔ s ∈ l := by
  simp only [includes, List.any_eq_true, decide_eq_true_eq]
  constructor
  · rintro ⟨x, hx, rfl⟩; exact hx
  · intro h; exact ⟨s, h, rfl⟩

theorem includes_false_of_only (l : List String) (mfile s : String)
    (honly : ∀ f ∈ l, isMarker f = true → f = mfile)
    (hmark : isMarker s = true) (hne : s ≠ mfile) :
    includes l s = false := by
  cases hx : includes l s with
  | false => rfl
  | true => exact absurd (honly s ((includes_iff_mem _ _).mp hx) hmark) hne

theorem anyPy_false_of_only (l : List String) (mfile : String)
    (honly : ∀ f ∈ l, isMarker f = true → f = mfile)
    (hno : strEndsWith mfile ".py" = false) :
    l.any (fun f => strEndsWith f ".py") = false := by
  cases hx : l.any (fun f => strEndsWith f ".py") with
  | false => rfl
  | true =>
      obtain ⟨f, hf, hfe⟩ := List.any_eq_true.mp hx
      have hmark : isMarker f = true := by
        simp [isMarker, isPyMarker, hfe]
      have hfm := honly f hf hmark
      rw [hfm] at hfe
      rw [hfe] at hno
      exact Bool.noConfusion hno

theorem toolResult_total (r : ToolResult) :
    (∃ t, r = ToolResult.success t) ∨ (∃ t, r = ToolResult.failure t) := by
  cases r with
  | success t => exact Or.inl ⟨t, rfl⟩
  | failure t => exact Or.inr ⟨t, rfl⟩

/-- C6: a directory whose listing contains both the typed-script manifest
package.json and a JVM build-tool project file (pom.xml or build.gradle)
detects as the typed-script kind (nodejs): the first matching rule in the
priority order wins. -/
theorem detection_priority_typedscript (dir : String) (fs : ProjFS)
    (h1 : includes fs.entries "package.json" = true)
    (h2 : includes fs.entries "pom.xml" = true
      ∨ includes fs.entries "build.gradle" = true) :
    determineServerType dir fs = .ok .nodejs := by
  simp [determineServerType, determineServerTypeInner, h1]

theorem detection_priority_typedscript_witness :
    determineServerType "/proj" ⟨["package.json", "pom.xml"],
      false, false, false, [], []⟩ = .ok .nodejs :=
  detection_priority_typedscript "/proj" _ rfl (Or.inl rfl)

/-- C9: for the dynamic-script kind, the launch spec is exactly
uv --directory dir run server.py when server.py exists at the project root,
and otherwise python -m module where module is the server name with every
dash replaced by an underscore; and end to end, installing a directory that
contains only server.py registers the uv form under the basename of the
directory. -/
theorem dynamic_script_launch_spec (name dir : String) (fs : ProjFS) :
    buildEntry .python name dir fs =
      .ok (if fs.serverPyExists then
            ⟨"uv", ["--directory", dir, "run", "server.py"]⟩
          else ⟨"python", ["-m", moduleNameOf name]⟩) ∧
    installServer "/home/user/weather-server" pyScenarioFS .absent =
      .ok [("mcpServers", .obj [("weather-server", LaunchSpec.toJson
        ⟨"uv", ["--directory", "/home/user/weather-server", "run",
          "server.py"]⟩)])] := by
  constructor
  · cases h : fs.serverPyExists <;> simp [buildEntry, h]
  · rfl

/-- C4: for the JVM kind the Maven output directory target takes priority
over the Gradle one; within target a jar suffixed -jar-with-dependencies.jar
is preferred over a bare .jar and otherwise the first .jar is taken; when
the scanned output directory exists but holds no jar the install step fails
with the no-jar-found error; and end to end, a directory holding only
pom.xml and target/my-server-1.0.0-jar-with-dependencies.jar installs as
the java -jar launch spec on the absolute jar path. -/
theorem jvm_artifact_location (name dir jar : String) (fs : ProjFS) :
    (fs.targetExists = true →
      fs.targetFiles.find?
          (fun f => strEndsWith f "-jar-with-dependencies.jar") = some jar →
      buildEntry .java name dir fs =
        .ok ⟨"java", ["-jar", pathJoin (pathJoin dir "target") jar]⟩) ∧
    (fs.targetExists = true →
      fs.targetFiles.find?
          (fun f => strEndsWith f "-jar-with-dependencies.jar") = none →
      fs.targetFiles.find? (fun f => strEndsWith f ".jar") = some jar →
      buildEntry .java name dir fs =
        .ok ⟨"java", ["-jar", pathJoin (pathJoin dir "target") jar]⟩) ∧
    (fs.targetExists = true →
      chooseMavenJar fs.targetFiles = none →
      buildEntry .java name dir fs =
        .error ("No jar file found in " ++ pathJoin dir "target")) ∧
    (fs.targetExists = false → fs.buildLibsExists = true →
      fs.buildLibsFiles.find? (fun f => strEndsWith f ".jar") = none →
      buildEntry .java name dir fs =
        .error ("No jar file found in "
          ++ pathJoin (pathJoin dir "build") "libs")) ∧
    installServer "/home/user/my-server" mavenScenarioFS .absent =
      .ok [("mcpServers", .obj [("my-server", LaunchSpec.toJson
        ⟨"java", ["-jar",
          "/home/user/my-server/target/my-server-1.0.0-jar-with-dependencies.jar"]⟩)])] := by
  refine ⟨?_, ?_, ?_, ?_, rfl⟩
  · intro hT hw; simp [buildEntry, hT, chooseMavenJar, hw]
  · intro hT hw hj; simp [buildEntry, hT, chooseMavenJar, hw, hj]
  · intro hT hn; simp [buildEntry, hT, hn]
  · intro hT hL hn; simp [buildEntry, hT, hL, hn]

theorem jvm_artifact_location_witness :
    buildEntry .java "my-server" "/home/user/my-server" mavenScenarioFS =
      .ok ⟨"java", ["-jar",
        "/home/user/my-server/target/my-server-1.0.0-jar-with-dependencies.jar"]⟩ :=
  (jvm_artifact_location "my-server" "/home/user/my-server"
    "my-server-1.0.0-jar-with-dependencies.jar" mavenScenarioFS).1 rfl rfl

/-- C8: when the config file is absent, install does not fail on the
missing file: the registry starts empty, the written document holds exactly
one entry under mcpServers, and the save path creates parent directories
(the mkdir -p of the config parent directory is part of every write). -/
theorem missing_config_bootstrap (t : ServerType)
    (name dir configPath content : String) (fs : ProjFS) (spec : LaunchSpec)
    (hb : buildEntry t name dir fs = .ok spec) :
    updateClaudeConfig .absent t name dir fs =
      .ok [("mcpServers", .obj [(name, spec.toJson)])] ∧
    FsOp.mkdirRec (dirname configPath) ∈ writeJsonFile configPath content := by
  constructor
  · simp [updateClaudeConfig, hb, loadedDoc, assignServer, lookupKey, setKey]
  · simp [writeJsonFile]

theorem missing_config_bootstrap_witness :
    updateClaudeConfig .absent .python "my-server" "/d/my-server" pyModuleFS =
      .ok [("mcpServers", .obj [("my-server", LaunchSpec.toJson
        ⟨"python", ["-m", "my_server"]⟩)])] ∧
    FsOp.mkdirRec "/home/user/Claude" ∈
      writeJsonFile "/home/user/Claude/claude_desktop_config.json" "s" :=
  missing_config_bootstrap .python "my-server" "/d/my-server"
    "/home/user/Claude/claude_desktop_config.json" "s" pyModuleFS
    ⟨"python", ["-m", "my_server"]⟩ rfl

/-- C1 counterexample: with the config file present but holding invalid
JSON, installing a server.py project succeeds (no ConfigCorrupt failure)
and the config file is rewritten, so its contents do not stay unchanged:
afterwards the file holds the freshly written registry document instead of
the original bytes. -/
theorem corrupt_config_counterexample :
    (installServer "/home/user/pysrv" pyScenarioFS
        (.invalid corruptRaw)).isOk = true ∧
    configStateAfter (.invalid corruptRaw)
        (installServer "/home/user/pysrv" pyScenarioFS (.invalid corruptRaw))
      ≠ .invalid corruptRaw := by
  refine ⟨rfl, ?_⟩
  have he : installServer "/home/user/pysrv" pyScenarioFS
      (.invalid corruptRaw) =
      .ok [("mcpServers", .obj [("pysrv", LaunchSpec.toJson
        ⟨"uv", ["--directory", "/home/user/pysrv", "run", "server.py"]⟩)])] :=
    rfl
  rw [he]
  intro h
  exact ConfigFileState.noConfusion h

/-- C1 amended: if the config file exists but contains invalid JSON,
install does not fail with ConfigCorrupt; the parse failure is swallowed by
the inner catch, the registry is treated as empty, and (whenever artifact
location succeeds) the file is overwritten with a document holding only the
newly installed entry, discarding the prior contents. -/
theorem corrupt_config_overwritten (raw : String) (t : ServerType)
    (name dir : String) (fs : ProjFS) (spec : LaunchSpec)
    (hb : buildEntry t name dir fs = .ok spec) :
    updateClaudeConfig (.invalid raw) t name dir fs =
      .ok [("mcpServers", .obj [(name, spec.toJson)])] := by
  simp [updateClaudeConfig, hb, loadedDoc, assignServer, lookupKey, setKey]

theorem corrupt_config_overwritten_witness :
    updateClaudeConfig (.invalid corruptRaw) .python "pysrv" "/home/user/pysrv"
        pyScenarioFS =
      .ok [("mcpServers", .obj [("pysrv", LaunchSpec.toJson
        ⟨"uv", ["--directory", "/home/user/pysrv", "run", "server.py"]⟩)])] :=
  corrupt_config_overwritten corruptRaw .python "pysrv" "/home/user/pysrv"
    pyScenarioFS ⟨"uv", ["--directory", "/home/user/pysrv", "run", "server.py"]⟩
    rfl

/-- C2: merging into a parsed config document whose mcpServers key holds a
mapping writes exactly the document obtained by replacing that mapping with
the mapping updated at the installed name: the installed name maps to the
new launch spec, every other entry of the mapping is unchanged, and every
other top-level key of the document is unchanged; installing over an
existing name overwrites just that entry. -/
theorem merge_preserves_unrelated (o m : Doc) (t : ServerType)
    (name dir : String) (fs : ProjFS) (spec : LaunchSpec)
    (hm : lookupKey o "mcpServers" = some (.obj m))
    (hb : buildEntry t name dir fs = .ok spec) :
    updateClaudeConfig (.parsedObj o) t name dir fs =
      .ok (setKey o "mcpServers" (.obj (setKey m name spec.toJson))) ∧
    lookupKey (setKey m name spec.toJson) name = some spec.toJson ∧
    (∀ k, k ≠ name →
      lookupKey (setKey m name spec.toJson) k = lookupKey m k) ∧
    (∀ k, k ≠ "mcpServers" →
      lookupKey (setKey o "mcpServers" (.obj (setKey m name spec.toJson))) k
        = lookupKey o k) := by
  refine ⟨?_, lookupKey_setKey_self _ _ _,
    fun k hk => lookupKey_setKey_ne _ _ _ _ hk,
    fun k hk => lookupKey_setKey_ne _ _ _ _ hk⟩
  simp [updateClaudeConfig, hb, loadedDoc, normalizeMcp, hm, jsFalsy,
    assignServer]

theorem merge_preserves_unrelated_witness :
    updateClaudeConfig (.parsedObj demoDoc) .python "b" "/d/b" pyScenarioFS =
      .ok (setKey demoDoc "mcpServers"
        (.obj (setKey demoMcp "b" demoSpec.toJson))) ∧
    lookupKey (setKey demoMcp "b" demoSpec.toJson) "b" = some demoSpec.toJson ∧
    lookupKey (setKey demoMcp "b" demoSpec.toJson) "a" = lookupKey demoMcp "a" ∧
    lookupKey (setKey demoDoc "mcpServers"
        (.obj (setKey demoMcp "b" demoSpec.toJson))) "otherTool"
      = lookupKey demoDoc "otherTool" := by
  obtain ⟨h1, h2, h3, h4⟩ := merge_preserves_unrelated demoDoc demoMcp .python
    "b" "/d/b" pyScenarioFS demoSpec rfl rfl
  exact ⟨h1, h2, h3 "a" (by decide), h4 "otherTool" (by decide)⟩

/-- C3 counterexample: the Config Store save step performs a direct write
of the target path and performs no rename at all, so the
write-temp-then-rename strategy the claim asserts is not what the code
does. -/
theorem atomic_save_counterexample :
    ((writeJsonFile "/home/user/Claude/claude_desktop_config.json"
        "data").any FsOp.isRename = false) ∧
    FsOp.writeFile "/home/user/Claude/claude_desktop_config.json" "data" ∈
      writeJsonFile "/home/user/Claude/claude_desktop_config.json" "data" := by
  exact ⟨rfl, by simp [writeJsonFile]⟩

/-- C3 amended: the save step creates the parent directory and then writes
the registry document directly to the target path with a single writeFile;
no temporary file and no rename is involved, so the write is a direct
truncate-and-write and is not atomic with respect to concurrent readers. -/
theorem save_direct_write (p s : String) :
    writeJsonFile p s = [FsOp.mkdirRec (dirname p), FsOp.writeFile p s] ∧
    (writeJsonFile p s).any FsOp.isRename = false :=
  ⟨rfl, rfl⟩

/-- C5: each of the three tool handlers is a total function from its inputs
(including every file-system state and every outcome of the external
collaborators) into the uniform result shape: every run yields either a
success payload or a structured failure, and every error produced by the
install pipeline surfaces as a failure result wrapped by the boundary
catch, never as an unhandled fault. -/
theorem dispatcher_total (name : String) (lang : ServerLanguage)
    (resolvedDir : String) (tExists : Bool) (env : ScaffoldEnv)
    (bDirExists : Bool) (bPath : String) (entries : List String)
    (ext : ExternalBuilds) (iDirExists : Bool) (iPath iCfgPath : String)
    (fs : ProjFS) (cfg : ConfigFileState) :
    ((∃ t, createServerTool name lang resolvedDir tExists env
        = ToolResult.success t) ∨
     (∃ t, createServerTool name lang resolvedDir tExists env
        = ToolResult.failure t)) ∧
    ((∃ t, buildServerTool bDirExists bPath entries ext
        = ToolResult.success t) ∨
     (∃ t, buildServerTool bDirExists bPath entries ext
        = ToolResult.failure t)) ∧
    ((∃ t, installServerTool iDirExists iPath iCfgPath fs cfg
        = ToolResult.success t) ∨
     (∃ t, installServerTool iDirExists iPath iCfgPath fs cfg
        = ToolResult.failure t)) ∧
    (∀ e, installServer iPath fs cfg = .error e →
      installServerTool true iPath iCfgPath fs cfg =
        .failure ("Failed to install server: " ++ e)) := by
  refine ⟨toolResult_total _, toolResult_total _, toolResult_total _, ?_⟩
  intro e he
  simp [installServerTool, he]

theorem dispatcher_total_witness :
    installServerTool true "/x" "/cfg" noMarkerFS .absent =
      .failure ("Failed to install server: "
        ++ "Failed to determine server type: Unable to determine server type in directory: /x") :=
  (dispatcher_total "n" .typescript "/d" false ⟨.ok (), .ok ()⟩ true "/b" []
    ⟨.ok (), .ok (), .ok ()⟩ true "/x" "/cfg" noMarkerFS .absent).2.2.2
    "Failed to determine server type: Unable to determine server type in directory: /x"
    rfl

/-- C7: detection is a deterministic function of the directory entry set:
whenever the listing contains exactly one ecosystem marker file (and the
build-output directory probes are negative), detect returns the kind
belonging to that marker; and for the empty entry set detect fails with the
unable-to-determine error rather than returning any kind. -/
theorem detection_deterministic (dir : String) :
    (∀ (mfile : String) (fs : ProjFS),
      fs.targetExists = false → fs.buildLibsExists = false →
      mfile ∈ fs.entries →
      (∀ f ∈ fs.entries, isMarker f = true → f = mfile) →
      ((isTsMarker mfile = true → determineServerType dir fs = .ok .nodejs) ∧
       (isPyMarker mfile = true → determineServerType dir fs = .ok .python) ∧
       (isJvmMarker mfile = true → determineServerType dir fs = .ok .java))) ∧
    (∀ fs : ProjFS, fs.entries = [] → fs.targetExists = false →
      fs.buildLibsExists = false →
      determineServerType dir fs =
        .error ("Failed to determine server type: "
          ++ ("Unable to determine server type in directory: " ++ dir))) := by
  constructor
  · intro mfile fs hT hB hmem honly
    refine ⟨?_, ?_, ?_⟩
    · intro h
      have hq : mfile = "package.json" := by
        simpa [isTsMarker, beq_iff_eq] using h
      subst hq
      have h1 : includes fs.entries "package.json" = true :=
        (includes_iff_mem _ _).mpr hmem
      simp [determineServerType, determineServerTypeInner, h1]
    · intro h
      have hne : "package.json" ≠ mfile := by
        intro hh; rw [← hh] at h; exact absurd h (by decide)
      have h1 : includes fs.entries "package.json" = false :=
        includes_false_of_only _ _ _ honly (by decide) hne
      have h2 := h
      simp only [isPyMarker, Bool.or_eq_true, beq_iff_eq] at h2
      rcases h2 with ((hc | hc) | hc) | hc
      · subst hc
        have h3 : includes fs.entries "server.py" = true :=
          (includes_iff_mem _ _).mpr hmem
        simp [determineServerType, determineServerTypeInner, h1, h3]
      · have h3 : fs.entries.any (fun f => strEndsWith f ".py") = true :=
          List.any_eq_true.mpr ⟨mfile, hmem, hc⟩
        simp [determineServerType, determineServerTypeInner, h1, h3]
      · subst hc
        have h3 : includes fs.entries "requirements.txt" = true :=
          (includes_iff_mem _ _).mpr hmem
        simp [determineServerType, determineServerTypeInner, h1, h3]
      · subst hc
        have h3 : includes fs.entries "pyproject.toml" = true :=
          (includes_iff_mem _ _).mpr hmem
        simp [determineServerType, determineServerTypeInner, h1, h3]
    · intro h
      have h2 := h
      simp only [isJvmMarker, Bool.or_eq_true, beq_iff_eq] at h2
      rcases h2 with hc | hc <;> subst hc
      · have h1 : includes fs.entries "package.json" = false :=
          includes_false_of_only _ _ _ honly (by decide) (by decide)
        have h2 : includes fs.entries "server.py" = false :=
          includes_false_of_only _ _ _ honly (by decide) (by decide)
        have h3 : fs.entries.any (fun f => strEndsWith f ".py") = false :=
          anyPy_false_of_only _ _ honly (by decide)
        have h4 : includes fs.entries "requirements.txt" = false :=
          includes_false_of_only _ _ _ honly (by decide) (by decide)
        have h5 : includes fs.entries "pyproject.toml" = false :=
          includes_false_of_only _ _ _ honly (by decide) (by decide)
        have h6 : includes fs.entries "pom.xml" = true :=
          (includes_iff_mem _ _).mpr hmem
        simp [determineServerType, determineServerTypeInner,
          h1, h2, h3, h4, h5, h6]
      · have h1 : includes fs.entries "package.json" = false :=
          includes_false_of_only _ _ _ honly (by decide) (by decide)
        have h2 : includes fs.entries "server.py" = false :=
          includes_false_of_only _ _ _ honly (by decide) (by decide)
        have h3 : fs.entries.any (fun f => strEndsWith f ".py") = false :=
          anyPy_false_of_only _ _ honly (by decide)
        have h4 : includes fs.entries "requirements.txt" = false :=
          includes_false_of_only _ _ _ honly (by decide) (by decide)
        have h5 : includes fs.entries "pyproject.toml" = false :=
          includes_false_of_only _ _ _ honly (by decide) (by decide)
        have h6 : includes fs.entries "build.gradle" = true :=
          (includes_iff_mem _ _).mpr hmem
        have h7 : includes fs.entries "pom.xml" = false :=
          includes_false_of_only _ _ _ honly (by decide) (by decide)
        simp [determineServerType, determineServerTypeInner,
          h1, h2, h3, h4, h5, h6, h7]
  · intro fs he hT hB
    simp [determineServerType, determineServerTypeInner, he, hT, hB, includes]

theorem detection_deterministic_witness :
    determineServerType "/p" ⟨["package.json"], false, false, false, [], []⟩
      = .ok .nodejs ∧
    determineServerType "/p" pyModuleFS = .ok .python ∧
    determineServerType "/p" ⟨["build.gradle"], false, false, false, [], []⟩
      = .ok .java ∧
    determineServerType "/p" noMarkerFS =
      .error ("Failed to determine server type: "
        ++ ("Unable to determine server type in directory: " ++ "/p")) := by
  obtain ⟨hone, hempty⟩ := detection_deterministic "/p"
  refine ⟨?_, ?_, ?_, hempty noMarkerFS rfl rfl rfl⟩
  · exact (hone "package.json" _ rfl rfl (by decide) (by decide)).1 (by decide)
  · exact (hone "requirements.txt" pyModuleFS rfl rfl (by decide)
      (by decide)).2.1 (by decide)
  · exact (hone "build.gradle" _ rfl rfl (by decide) (by decide)).2.2
      (by decide)

/-- C10: the install tool takes no independent server-name parameter, and
whenever a run of the install pipeline succeeds with the written document
carrying a mapping under mcpServers, the launch spec built for the project
is registered there under exactly the basename of the resolved project
directory. -/
theorem install_key_is_basename (fullPath : String) (fs : ProjFS)
    (cfg : ConfigFileState) (d m : Doc)
    (hrun : installServer fullPath fs cfg = .ok d)
    (hm : lookupKey d "mcpServers" = some (.obj m)) :
    ∃ t spec, determineServerType fullPath fs = .ok t ∧
      buildEntry t (basename fullPath) fullPath fs = .ok spec ∧
      lookupKey m (basename fullPath) = some spec.toJson := by
  cases hdet : determineServerType fullPath fs with
  | error e => simp [installServer, hdet] at hrun
  | ok t =>
      have hrun2 : updateClaudeConfig cfg t (basename fullPath) fullPath fs
          = .ok d := by
        simpa [installServer, hdet] using hrun
      cases hb : buildEntry t (basename fullPath) fullPath fs with
      | error e => simp [updateClaudeConfig, hb] at hrun2
      | ok spec =>
          cases ha : assignServer (loadedDoc cfg) (basename fullPath)
              spec.toJson with
          | error e => simp [updateClaudeConfig, hb, ha] at hrun2
          | ok d2 =>
              have hd : d2 = d := by
                simpa [updateClaudeConfig, hb, ha] using hrun2
              cases hlk : lookupKey (loadedDoc cfg) "mcpServers" with
              | none => simp [assignServer, hlk] at ha
              | some v =>
                  cases v with
                  | null => simp [assignServer, hlk] at ha
                  | bool b => simp [assignServer, hlk] at ha
                  | num n => simp [assignServer, hlk] at ha
                  | str s => simp [assignServer, hlk] at ha
                  | arr a =>
                      have hda : d2 = loadedDoc cfg := by
                        have := ha
                        simp [assignServer, hlk] at this
                        exact this.symm
                      have hcontra : lookupKey d "mcpServers"
                          = some (.arr a) := by
                        rw [← hd, hda]; exact hlk
                      rw [hcontra] at hm
                      simp at hm
                  | obj mb =>
                      have hda : d2 = setKey (loadedDoc cfg) "mcpServers"
                          (.obj (setKey mb (basename fullPath)
                            spec.toJson)) := by
                        have := ha
                        simp [assignServer, hlk] at this
                        exact this.symm
                      have hlook : lookupKey d "mcpServers" =
                          some (.obj (setKey mb (basename fullPath)
                            spec.toJson)) := by
                        rw [← hd, hda]; exact lookupKey_setKey_self _ _ _
                      rw [hlook] at hm
                      simp only [Option.some.injEq, JsonVal.obj.injEq] at hm
                      refine ⟨t, spec, rfl, hb, ?_⟩
                      rw [← hm]
                      exact lookupKey_setKey_self _ _ _

theorem install_key_is_basename_witness :
    ∃ t spec, determineServerType "/home/user/pysrv2" pyScenarioFS = .ok t ∧
      buildEntry t (basename "/home/user/pysrv2") "/home/user/pysrv2"
        pyScenarioFS = .ok spec ∧
      lookupKey [("pysrv2", LaunchSpec.toJson
          ⟨"uv", ["--directory", "/home/user/pysrv2", "run", "server.py"]⟩)]
        (basename "/home/user/pysrv2") = some spec.toJson :=
  install_key_is_basename "/home/user/pysrv2" pyScenarioFS .absent
    [("mcpServers", .obj [("pysrv2", LaunchSpec.toJson
      ⟨"uv", ["--directory", "/home/user/pysrv2", "run", "server.py"]⟩)])]
    [("pysrv2", LaunchSpec.toJson
      ⟨"uv", ["--directory", "/home/user/pysrv2", "run", "server.py"]⟩)]
    rfl rfl

end MCPServerManager
